import Mathlib

/-!
Verification development for the PhysiCell-Studio_micro repository.

The repository holds two Python source files:
  * download_binary.py - downloads and unpacks a pre-built simulation binary;
  * studio/bin/vtk_view.py - a VTK-based 3D viewer for PhysiCell output.

Python strings are modelled through their character lists; machine floats
appearing in pure arithmetic are modelled over the rationals, and the one
transcendental computation (the fractional power used for cell radii) over
the reals.
-/

/-! ### Python string primitives -/

/-- Lower-casing of one character, as Python does on ASCII letters
(all strings the code compares are ASCII). -/
def lowerChar (c : Char) : Char :=
  if 'A' ≤ c ∧ c ≤ 'Z' then Char.ofNat (c.toNat + 32) else c

/-- Python str.lower on ASCII data. -/
def pyLower (s : String) : String :=
  String.mk (s.data.map lowerChar)

/-- Character-list test that the first list heads the second one. -/
def strStarts : List Char → List Char → Bool
  | [], _ => true
  | _ :: _, [] => false
  | a :: p, b :: s => a = b && strStarts p s

/-- Python str.startswith. -/
def pyStartsWith (s p : String) : Bool :=
  strStarts p.data s.data

/-- Python str.endswith. -/
def pyEndsWith (s p : String) : Bool :=
  strStarts p.data.reverse s.data.reverse

/-- Python os.path.join for the POSIX flavour used by the code. -/
def os_path_join (a b : String) : String :=
  if pyStartsWith b ("/") then b
  else if a = "" then b
  else if pyEndsWith a ("/") then a ++ b
  else a ++ "/" ++ b

/-- Python int() applied to a rational value: truncation toward zero
(the numerator T-divided by the positive denominator). -/
def pyInt (q : ℚ) : ℤ :=
  Int.tdiv q.num (q.den : ℤ)

/-- Python list indexing: nonnegative indices count from the front,
negative indices from the back, anything else raises IndexError (none). -/
def pyListGet {α : Type} (l : List α) (i : ℤ) : Option α :=
  if 0 ≤ i then l.get? i.toNat
  else
    let j := (l.length : ℤ) + i
    if 0 ≤ j then l.get? j.toNat else none

/-- Python format specifier 08d: decimal rendering zero-padded to width 8,
the sign counting toward the width. -/
def pad8 (n : ℤ) : String :=
  if n < 0 then
    let s := toString (-n)
    "-" ++ String.mk (List.replicate (8 - 1 - s.length) '0') ++ s
  else
    let s := toString n
    String.mk (List.replicate (8 - s.length) '0') ++ s

/-! ### download_binary.py : model table and URL resolution -/

def physicell_version : String := "1.14.2"

def repo_physicell : String := "MathCancer/PhysiCell"

def physiboss_version : String := "v2.2.3"

def repo_physiboss : String := "sysbio-curie/PhysiBoSS"

/-- The list_models dictionary of download_binary.py: symbolic model name
mapped to the base release URL its archive is fetched from. -/
def list_models : List (String × String) :=
  [("physiboss-tutorial", "https://github.com/" ++ repo_physiboss ++ "/releases/download/" ++ physiboss_version ++ "/"),
   ("physiboss-tutorial-invasion", "https://github.com/" ++ repo_physiboss ++ "/releases/download/" ++ physiboss_version ++ "/"),
   ("physiboss-cell-lines", "https://github.com/" ++ repo_physiboss ++ "/releases/download/" ++ physiboss_version ++ "/"),
   ("template_BM", "https://github.com/" ++ repo_physiboss ++ "/releases/download/" ++ physiboss_version ++ "/"),
   ("template", "https://github.com/" ++ repo_physicell ++ "/releases/download/" ++ physicell_version ++ "/"),
   ("rules", "https://github.com/" ++ repo_physicell ++ "/releases/download/" ++ physicell_version ++ "/"),
   ("physimess", "https://github.com/" ++ repo_physicell ++ "/releases/download/" ++ physicell_version ++ "/"),
   ("interaction", "https://github.com/" ++ repo_physicell ++ "/releases/download/" ++ physicell_version ++ "/")]

/-- Dictionary lookup in list_models. -/
def lookup_model (m : String) : Option String :=
  (list_models.find? (fun p => p.1 = m)).map Prod.snd

/-- Module-level argument handling of download_binary.py.  The result is
the number of times the usage text is printed, paired with the chosen
model (none models exit(1)).  argv includes the script name in front. -/
def parse_args (argv : List String) : ℕ × Option String :=
  let no_arg := argv.length < 2
  let model := if no_arg then "template_BM" else argv.getD 1 ""
  let p1 : ℕ := if no_arg then 1 else 0
  if model = "-h" ∨ model = "--help" ∨ lookup_model model = none then (p1 + 1, none)
  else (p1, some model)

/-- Module-level OS detection of download_binary.py: archive file name for
the chosen model, or error 1 when the operating system is unsupported
(the script prints a message and exits with status 1). -/
def resolve_mb_file (model os_type : String) : Except ℕ String :=
  if pyLower os_type = "darwin" then Except.ok (model ++ "-macos.tar.gz")
  else if pyStartsWith (pyLower os_type) ("win") || pyStartsWith (pyLower os_type) ("msys_nt")
       || pyStartsWith (pyLower os_type) ("mingw64_nt") then Except.ok (model ++ "-win.tar.gz")
  else if pyStartsWith (pyLower os_type) ("linux") then Except.ok (model ++ "-linux.tar.gz")
  else Except.error 1

/-- url = list_models[model] + mb_file. -/
def resolve_url (model os_type : String) : Except ℕ String :=
  match lookup_model model, resolve_mb_file model os_type with
  | some base, Except.ok f => Except.ok (base ++ f)
  | _, Except.error c => Except.error c
  | none, Except.ok _ => Except.error 1

/-! ### download_binary.py : fetch, extract, remove, chmod sequence -/

/-- Observable side effects of the tail of the script. -/
inductive Eff where
  | fetch (url file : String)
  | extract (name : String)
  | removeFile (name : String)
  | chmodExec (name : String)
  | message (s : String)
  deriving DecidableEq, Repr

/-- Files present in the working directory, and the set of files whose
owner-execute bit is on. -/
structure Disk where
  files : List String
  exec_bits : List String
  deriving DecidableEq, Repr

/-- Outcome of the script tail: normal completion, exit(1) from the bare
except handler, or an uncaught exception (the os.stat call). -/
inductive ScriptResult where
  | ok (d : Disk) (tr : List Eff)
  | exit1 (d : Disk) (tr : List Eff)
  | uncaught (msg : String) (d : Disk) (tr : List Eff)
  deriving DecidableEq, Repr

/-- File set right after urllib.request.urlretrieve wrote the archive. -/
def fetched_files (fs0 : List String) (mb : String) : List String :=
  mb :: fs0.filter (fun n => n ≠ mb)

/-- File set right after tar.extract wrote the first archive member. -/
def extracted_files (fs0 : List String) (mb b : String) : List String :=
  b :: (fetched_files fs0 mb).filter (fun n => n ≠ b)

/-- File set right after os.remove deleted the archive. -/
def after_remove_files (fs0 : List String) (mb b : String) : List String :=
  (extracted_files fs0 mb b).filter (fun n => n ≠ mb)

/-- new_name = "project" if not mb_file.endswith("win.tar.gz") else "project.exe". -/
def new_name_of (mb : String) : String :=
  if pyEndsWith mb ("win.tar.gz") then "project.exe" else "project"

/-- The fetch / untar / remove / chmod tail of download_binary.py, after the
URL has been resolved.  tar_names is the member list of the downloaded
archive; the script extracts only its first entry. -/
def run_fetch_extract (d0 : Disk) (url mb : String) (tar_names : List String) : ScriptResult :=
  let fs1 := fetched_files d0.files mb
  let tr1 := [Eff.fetch url mb]
  match tar_names with
  | [] =>
      ScriptResult.exit1 ⟨fs1, d0.exec_bits⟩ (tr1 ++ [Eff.message ("! Error untarring the file")])
  | b :: _ =>
      let fs3 := after_remove_files d0.files mb b
      let nn := new_name_of mb
      let tr2 := tr1 ++ [Eff.extract b, Eff.removeFile mb]
      if nn ∈ fs3 then
        ScriptResult.ok ⟨fs3, nn :: d0.exec_bits.filter (fun n => n ≠ nn)⟩
          (tr2 ++ [Eff.chmodExec nn])
      else
        ScriptResult.uncaught ("FileNotFoundError") ⟨fs3, d0.exec_bits⟩ tr2

/-- Recognizer for fetch effects. -/
def isFetch : Eff → Bool
  | Eff.fetch _ _ => true
  | _ => false

deriving instance DecidableEq for Except

/-! ### studio/bin/vtk_view.py : data model -/

/-- An RGB triple with float components, modelled as rationals. -/
def Color : Type := ℚ × ℚ × ℚ

/-- One row of the cell dataframe returned by pyMCDS_cells.get_cell_df. -/
structure CellRec where
  pos_x : ℚ
  pos_y : ℚ
  pos_z : ℚ
  total_volume : ℚ
  cell_type : ℤ
  deriving DecidableEq, Repr

/-- The parsed content of one output XML file: the cell table, whether a
position_z column is present, and the simulated time in minutes. -/
structure CellData where
  cells : List CellRec
  has_z : Bool
  time_mins : ℚ
  deriving DecidableEq, Repr

/-- Operations the viewer performs on the renderer, the console and the
render window while refreshing a frame. -/
inductive RenderAct where
  | removeAll
  | textActor (s : String) (fontSize : ℕ) (color : Color) (x y : ℤ)
  | cellGlyphs (positions : List (ℚ × ℚ × ℚ)) (colors : List (ℤ × ℤ × ℤ)) (radii : List ℝ)
  | sphereActor (radius : ℚ) (color : Color)
  | axes
  | render
  | consolePrint (s : String)

/-- State of a PhysiCellVTKView instance.  vtk_win records whether a
render-window handle is set, has_qt_window whether the Qt window
attribute exists; title carries the window title and scene the actors
currently held by the renderer. -/
structure Viewer where
  output_dir : String
  current_frame : ℤ
  cell_colors : List Color
  vtk_win : Bool
  has_qt_window : Bool
  title : String
  scene : List RenderAct

/-- f-string output{frame:08d}.xml. -/
def xml_root (frame : ℤ) : String :=
  "output" ++ pad8 frame ++ ".xml"

/-- f-string snapshot{frame:08d}.svg. -/
def svg_name (frame : ℤ) : String :=
  "snapshot" ++ pad8 frame ++ ".svg"

/-- create_demo_sphere: a fixed sphere of radius 50 colored red. -/
def create_demo_sphere : List RenderAct :=
  [RenderAct.sphereActor 50 (1, 0, 0)]

/-- add_frame_info_text: yellow CURRENT FRAME banner. -/
def add_frame_info_text (v : Viewer) : List RenderAct :=
  [RenderAct.textActor ("CURRENT FRAME: " ++ toString v.current_frame) 24 (1, 1, 0) 100 30]

/-- add_error_text: light red error banner. -/
def add_error_text (e : String) : List RenderAct :=
  [RenderAct.textActor ("Error loading data: " ++ e) 16 (1, 1/2, 1/2) 20 100]

/-- The loop body computing one cell color: int(component * 255) of the
looked-up table entry. -/
def scale255 (c : Color) : ℤ × ℤ × ℤ :=
  (pyInt (c.1 * 255), pyInt (c.2.1 * 255), pyInt (c.2.2 * 255))

/-- Color selection of load_and_display_cells: when ct < len(cell_colors)
the table is indexed with Python semantics (negative values count from
the end, and indexing can raise IndexError); otherwise the default light
gray (180, 180, 180) is used. -/
def pick_color (colors : List Color) (ct : ℤ) : Except String (ℤ × ℤ × ℤ) :=
  if ct < (colors.length : ℤ) then
    match pyListGet colors ct with
    | some c => Except.ok (scale255 c)
    | none => Except.error ("list index out of range")
  else
    Except.ok (180, 180, 180)

/-- Cell radius formula of load_and_display_cells: numpy divide by the
literal 4.188790204786391 followed by numpy power with the literal
exponent 0.333333333333333333333333333333333333333. -/
noncomputable def cell_radius (v : ℝ) : ℝ :=
  (v / 4.188790204786391) ^ (0.333333333333333333333333333333333333333 : ℝ)

/-- Time caption computed from mcds.get_time() minutes. -/
def time_str (mins : ℚ) : String :=
  let hrs : ℤ := pyInt (mins / 60)
  let days : ℤ := pyInt ((hrs : ℚ) / 24)
  let h2 : ℤ := hrs - days * 24
  let m2 : ℤ := pyInt (mins - (hrs : ℚ) * 60)
  toString days ++ "d, " ++ toString h2 ++ "h, " ++ toString m2 ++ "m"

/-- load_and_display_cells.  The pyMCDS parser is external to the
repository, so the parsed file content arrives as the data argument; an
error value stands for an exception raised while reading the file.  A
raised IndexError from the color lookup propagates out before any actor
reaches the renderer, exactly as in the source, where every renderer add
happens after the per-cell loop. -/
noncomputable def load_and_display_cells (v : Viewer) (xml_file_root : String)
    (data : Except String CellData) : Except String (List RenderAct) := do
  let d ← data
  let cols ← d.cells.mapM (fun c => pick_color v.cell_colors c.cell_type)
  let n := d.cells.length
  let ts := time_str d.time_mins
  Except.ok
    [RenderAct.cellGlyphs
       (d.cells.map (fun c => (c.pos_x, c.pos_y, if d.has_z then c.pos_z else 0)))
       cols
       (d.cells.map (fun c => cell_radius (c.total_volume : ℝ))),
     RenderAct.textActor ("FILE: " ++ xml_file_root) 16 (1, 1, 1) 20 60,
     RenderAct.textActor ("PhysiCell Frame " ++ toString v.current_frame ++ " - "
        ++ toString n ++ " cells - " ++ ts) 16 (1, 1, 1) 20 30,
     RenderAct.consolePrint ("Loaded " ++ toString n ++ " cells from frame "
        ++ toString v.current_frame)]

/-- try_svg_fallback: look for the snapshot SVG; either way a demo sphere
is created, with different banner text. -/
def try_svg_fallback (fs : List String) (v : Viewer) : List RenderAct :=
  let svg_file := svg_name v.current_frame
  let svg_path := os_path_join v.output_dir svg_file
  if svg_path ∈ fs then
    [RenderAct.consolePrint ("Found SVG file: " ++ svg_path),
     RenderAct.textActor ("FILE: " ++ svg_path) 24 (1, 1, 0) 100 100,
     RenderAct.textActor
       ("SVG files contain limited position data. Full 3D visualization requires XML output.")
       16 (1, 1/2, 1/2) 20 140]
    ++ create_demo_sphere
  else
    [RenderAct.textActor ("No cell data found for frame " ++ toString v.current_frame)
       24 (1, 1, 0) 100 100]
    ++ create_demo_sphere

/-- update_frame_data.  fs is the set of paths that exist on disk and
loader the external pyMCDS parse of a given file.  The try/except of the
source becomes the match on the load result: every branch returns a plain
action list, so no exception escapes this boundary. -/
noncomputable def update_frame_data (fs : List String)
    (loader : String → Except String CellData) (v : Viewer) : List RenderAct :=
  let root := xml_root v.current_frame
  let xml_file := os_path_join v.output_dir root
  let body :=
    if xml_file ∈ fs then
      match load_and_display_cells v root (loader root) with
      | Except.ok acts => acts
      | Except.error e =>
          RenderAct.consolePrint ("Error loading cell data: " ++ e)
            :: create_demo_sphere ++ add_error_text e
    else
      try_svg_fallback fs v
  (RenderAct.removeAll :: add_frame_info_text v) ++ body ++ [RenderAct.axes]
    ++ (if v.vtk_win then [RenderAct.render] else [])

/-- set_current_frame: early return on an equal frame number, else update
the title of whichever window exists and rebuild the scene. -/
noncomputable def set_current_frame (fs : List String)
    (loader : String → Except String CellData) (v : Viewer) (frame_num : ℤ) : Viewer :=
  if v.current_frame = frame_num then v
  else
    let v1 := { v with current_frame := frame_num }
    let v2 :=
      if v1.has_qt_window then
        { v1 with title := "PhysiCell VTK Viewer - Frame " ++ toString frame_num }
      else if v1.vtk_win then
        { v1 with title := "PhysiCell VTK Viewer - Frame " ++ toString frame_num }
      else v1
    { v2 with scene := update_frame_data fs loader v2 }

/-- check_for_frame_update: the body of the timer callback is the single
statement pass; it returns leaving the viewer untouched and performs no
action. -/
def check_for_frame_update (v : Viewer) : Viewer × List RenderAct :=
  (v, [])

/-! ### Helper lemmas -/

theorem filter_ne_of_not_mem {α : Type} [DecidableEq α] {l : List α} {x : α} (h : x ∉ l) :
    l.filter (fun n => n ≠ x) = l := by
  induction l with
  | nil => rfl
  | cons a t ih =>
    rw [List.mem_cons, not_or] at h
    have ha : a ≠ x := fun e => h.1 e.symm
    simp [List.filter_cons, ha]
    exact fun y hy e => h.2 (e ▸ hy)

theorem strStarts_first_char {a b : Char} {p q l : List Char} (hab : a ≠ b)
    (h1 : strStarts (a :: p) l = true) (h2 : strStarts (b :: q) l = true) : False := by
  cases l with
  | nil => simp [strStarts] at h1
  | cons c t =>
    simp [strStarts] at h1 h2
    exact hab (h1.1.trans h2.1.symm)

/-! ### Claim theorems -/

/-- C4: requesting the frame the viewer already displays is a no-op:
set_current_frame compares the requested index with the current one
before doing anything and returns the state unchanged. -/
theorem set_current_frame_same_noop (fs : List String)
    (loader : String → Except String CellData) (v : Viewer) :
    set_current_frame fs loader v v.current_frame = v := by
  simp [set_current_frame]

/-- C9: the timer callback check_for_frame_update changes no viewer state
and performs no action, no matter how many times it fires; frame changes
happen only through set_current_frame. -/
theorem check_for_frame_update_noop (v : Viewer) (n : ℕ) :
    (fun s => (check_for_frame_update s).1)^[n] v = v
  ∧ check_for_frame_update v = (v, []) := by
  constructor
  · induction n with
    | zero => rfl
    | succ k ih =>
      rw [Function.iterate_succ_apply]
      exact ih
  · rfl

/-- C2: the color of a rendered cell with nonnegative type index ct is the
cell_colors entry at ct, and the default light gray (180, 180, 180) as
soon as ct reaches the table length. -/
theorem pick_color_lookup_clamp (colors : List Color) (ct : ℤ) (hct : 0 ≤ ct) :
    ((colors.length : ℤ) ≤ ct → pick_color colors ct = Except.ok (180, 180, 180))
  ∧ (∀ hlt : ct.toNat < colors.length,
      pick_color colors ct = Except.ok (scale255 (colors.get ⟨ct.toNat, hlt⟩))) := by
  constructor
  · intro hle
    unfold pick_color
    rw [if_neg (by omega)]
  · intro hlt
    unfold pick_color
    rw [if_pos (by omega : ct < (colors.length : ℤ))]
    simp only [pyListGet]
    rw [if_pos hct, List.get?_eq_get hlt]

/-- C2 witness: clamping and lookup at concrete inputs. -/
theorem pick_color_lookup_clamp_witness :
    (0:ℤ) ≤ 5
  ∧ pick_color [((1:ℚ), (0:ℚ), (0:ℚ))] 5 = Except.ok (180, 180, 180)
  ∧ pick_color [((1:ℚ), (0:ℚ), (0:ℚ))] 0 = Except.ok (255, 0, 0) :=
  ⟨by decide,
   (pick_color_lookup_clamp [((1:ℚ), (0:ℚ), (0:ℚ))] 5 (by decide)).1 (by decide),
   by
     have h := (pick_color_lookup_clamp [((1:ℚ), (0:ℚ), (0:ℚ))] 0 (by decide)).2 (by decide)
     rw [h]
     show Except.ok (scale255 ((1:ℚ), (0:ℚ), (0:ℚ))) = _
     norm_num [scale255, pyInt]⟩

/-- C8 counterexample: with a nonempty color table and cell type -5 the
lookup raises IndexError instead of producing any color, so the claim
fails as universally stated. -/
theorem pick_color_negative_counterexample :
    pick_color [((0:ℚ), (0:ℚ), (0:ℚ))] (-5) = Except.error ("list index out of range") := by
  decide

/-- C8 amended: a negative cell type ct with length + ct still in range is
served from the end of the table, Python style; when length + ct is
negative the lookup raises IndexError instead. -/
theorem pick_color_negative_index (colors : List Color) (ct : ℤ) (hneg : ct < 0)
    (h0 : 0 ≤ (colors.length : ℤ) + ct)
    (hlt : ((colors.length : ℤ) + ct).toNat < colors.length) :
    pick_color colors ct
      = Except.ok (scale255 (colors.get ⟨((colors.length : ℤ) + ct).toNat, hlt⟩)) := by
  unfold pick_color
  rw [if_pos (by omega : ct < (colors.length : ℤ))]
  simp only [pyListGet]
  rw [if_neg (by omega : ¬ (0:ℤ) ≤ ct), if_pos h0, List.get?_eq_get hlt]

/-- C8 witness: type -1 against a two-entry table yields the last entry. -/
theorem pick_color_negative_index_witness :
    ((-1:ℤ) < 0)
  ∧ pick_color [((1:ℚ), (0:ℚ), (0:ℚ)), ((0:ℚ), (1:ℚ), (0:ℚ))] (-1)
      = Except.ok (0, 255, 0) :=
  ⟨by decide, by
    have h := pick_color_negative_index [((1:ℚ), (0:ℚ), (0:ℚ)), ((0:ℚ), (1:ℚ), (0:ℚ))] (-1)
        (by decide) (by decide) (by decide)
    rw [h]
    show Except.ok (scale255 ((0:ℚ), (1:ℚ), (0:ℚ))) = _
    norm_num [scale255, pyInt]⟩

/-- C10: called without an argument the script prints the usage text once
and proceeds with the default model template_BM; given -h, --help or a
name outside the model list it prints the usage text and exits 1. -/
theorem parse_args_usage (a0 m : String) (rest : List String) :
    parse_args [a0] = (1, some ("template_BM"))
  ∧ (m = "-h" ∨ m = "--help" ∨ lookup_model m = none
      → parse_args (a0 :: m :: rest) = (1, none)) := by
  constructor
  · rfl
  · intro h
    have hlen : ¬ ((a0 :: m :: rest).length < 2) := by
      simp only [List.length_cons]
      omega
    simp only [parse_args, if_neg hlen, List.getD_cons_succ, List.getD_cons_zero]
    rw [if_pos h]

/-- C10 witness: an unknown model name exits with the usage text. -/
theorem parse_args_usage_witness :
    (("nope" : String) = "-h" ∨ ("nope" : String) = "--help" ∨ lookup_model ("nope") = none)
  ∧ parse_args ["download_binary.py", "nope"] = (1, none) :=
  ⟨Or.inr (Or.inr (by rfl)),
   (parse_args_usage ("download_binary.py") ("nope") []).2 (Or.inr (Or.inr (by rfl)))⟩

/-- C5: for a model of the list, the download URL is the base release URL
followed by the model name and the platform suffix, by the exact
case-insensitive tests of the script; any other operating system makes
the script exit with status 1. -/
theorem resolve_url_platform (model os base : String)
    (hb : lookup_model model = some base) :
    (pyLower os = "darwin"
      → resolve_url model os = Except.ok (base ++ (model ++ "-macos.tar.gz")))
  ∧ ((pyStartsWith (pyLower os) ("win") = true ∨ pyStartsWith (pyLower os) ("msys_nt") = true
        ∨ pyStartsWith (pyLower os) ("mingw64_nt") = true)
      → resolve_url model os = Except.ok (base ++ (model ++ "-win.tar.gz")))
  ∧ (pyStartsWith (pyLower os) ("linux") = true
      → resolve_url model os = Except.ok (base ++ (model ++ "-linux.tar.gz")))
  ∧ (pyLower os ≠ "darwin"
      → pyStartsWith (pyLower os) ("win") = false
      → pyStartsWith (pyLower os) ("msys_nt") = false
      → pyStartsWith (pyLower os) ("mingw64_nt") = false
      → pyStartsWith (pyLower os) ("linux") = false
      → resolve_url model os = Except.error 1) := by
  refine ⟨fun hd => ?_, fun hw => ?_, fun hl => ?_, fun hd h1 h2 h3 h4 => ?_⟩
  · simp [resolve_url, resolve_mb_file, hb, hd]
  · have hd : ¬ pyLower os = "darwin" := by
      intro he
      rw [he] at hw
      rcases hw with h | h | h <;> revert h <;> decide
    rcases hw with h | h | h <;> simp [resolve_url, resolve_mb_file, hb, hd, h]
  · have hd : ¬ pyLower os = "darwin" := by
      intro he
      rw [he] at hl
      revert hl
      decide
    have hw1 : pyStartsWith (pyLower os) ("win") = false := by
      cases hv : pyStartsWith (pyLower os) ("win")
      · rfl
      · exact absurd (strStarts_first_char (by decide) hv hl) not_false
    have hw2 : pyStartsWith (pyLower os) ("msys_nt") = false := by
      cases hv : pyStartsWith (pyLower os) ("msys_nt")
      · rfl
      · exact absurd (strStarts_first_char (by decide) hv hl) not_false
    have hw3 : pyStartsWith (pyLower os) ("mingw64_nt") = false := by
      cases hv : pyStartsWith (pyLower os) ("mingw64_nt")
      · rfl
      · exact absurd (strStarts_first_char (by decide) hv hl) not_false
    simp [resolve_url, resolve_mb_file, hb, hd, hw1, hw2, hw3, hl]
  · simp [resolve_url, resolve_mb_file, hb, hd, h1, h2, h3, h4]

/-- C5 witness: the template model on a Linux host. -/
theorem resolve_url_platform_witness :
    lookup_model ("template")
      = some ("https://github.com/MathCancer/PhysiCell/releases/download/1.14.2/")
  ∧ pyStartsWith (pyLower ("Linux")) ("linux") = true
  ∧ resolve_url ("template") ("Linux")
      = Except.ok ("https://github.com/MathCancer/PhysiCell/releases/download/1.14.2/"
          ++ ("template" ++ "-linux.tar.gz")) :=
  ⟨by rfl, by decide,
   (resolve_url_platform ("template") ("Linux")
      ("https://github.com/MathCancer/PhysiCell/releases/download/1.14.2/")
      (by rfl)).2.2.1 (by decide)⟩

/-- C6: a successful run of the script tail removes the downloaded archive
after extraction, leaves exactly one new file on disk (the extracted
first archive member) and performs exactly one fetch. -/
theorem run_fetch_extract_single_file
    (d0 : Disk) (url mb b : String) (rest : List String) (d : Disk) (tr : List Eff)
    (hrun : run_fetch_extract d0 url mb (b :: rest) = ScriptResult.ok d tr)
    (hmb : mb ∉ d0.files) (hb : b ∉ d0.files) (hne : b ≠ mb) :
    d.files = b :: d0.files ∧ mb ∉ d.files ∧ tr.countP isFetch = 1 := by
  have hfs : after_remove_files d0.files mb b = b :: d0.files := by
    have h1 : d0.files.filter (fun n => n ≠ mb) = d0.files := filter_ne_of_not_mem hmb
    have h2 : d0.files.filter (fun n => n ≠ b) = d0.files := filter_ne_of_not_mem hb
    have hmbne : mb ≠ b := fun e => hne e.symm
    simp [after_remove_files, extracted_files, fetched_files, List.filter_cons,
      hne, hmbne, h1, h2]
    exact fun y hy => ⟨fun e => hmb (e ▸ hy), fun e => hb (e ▸ hy), fun e => hmb (e ▸ hy)⟩
  simp only [run_fetch_extract] at hrun
  by_cases hmem : new_name_of mb ∈ after_remove_files d0.files mb b
  · rw [if_pos hmem] at hrun
    injection hrun with hd htr
    constructor
    · rw [← hd, hfs]
    constructor
    · rw [← hd, hfs]
      exact fun hc => (List.mem_cons.mp hc).elim (fun e => hne e.symm) (fun hm => hmb hm)
    · rw [← htr]
      simp [List.countP_cons, List.countP_append, isFetch]
  · rw [if_neg hmem] at hrun
    simp at hrun

/-- C6 witness: a concrete successful run. -/
theorem run_fetch_extract_single_file_witness :
    run_fetch_extract ⟨[], []⟩ ("u") ("m-linux.tar.gz") ["project"]
      = ScriptResult.ok ⟨["project"], ["project"]⟩
          [Eff.fetch ("u") ("m-linux.tar.gz"), Eff.extract ("project"),
           Eff.removeFile ("m-linux.tar.gz"), Eff.chmodExec ("project")]
  ∧ ((⟨["project"], ["project"]⟩ : Disk).files = "project" :: (⟨[], []⟩ : Disk).files
      ∧ ("m-linux.tar.gz") ∉ (⟨["project"], ["project"]⟩ : Disk).files
      ∧ [Eff.fetch ("u") ("m-linux.tar.gz"), Eff.extract ("project"),
         Eff.removeFile ("m-linux.tar.gz"), Eff.chmodExec ("project")].countP isFetch = 1) :=
  ⟨by decide,
   run_fetch_extract_single_file ⟨[], []⟩ ("u") ("m-linux.tar.gz") ("project") [] _ _
     (by decide) (by decide) (by decide) (by decide)⟩

/-- C7: any successful run chmods the fixed name project (project.exe for
a Windows archive) computed from the archive suffix alone, never from the
extracted member name, and success requires that very file to be present
after extraction and archive removal. -/
theorem run_chmod_fixed_name (d0 : Disk) (url mb b : String) (rest : List String)
    (d : Disk) (tr : List Eff)
    (hrun : run_fetch_extract d0 url mb (b :: rest) = ScriptResult.ok d tr) :
    Eff.chmodExec (new_name_of mb) ∈ tr
  ∧ new_name_of mb ∈ after_remove_files d0.files mb b := by
  simp only [run_fetch_extract] at hrun
  by_cases hmem : new_name_of mb ∈ after_remove_files d0.files mb b
  · rw [if_pos hmem] at hrun
    injection hrun with hd htr
    refine ⟨?_, hmem⟩
    rw [← htr]
    simp
  · rw [if_neg hmem] at hrun
    simp at hrun

/-- C7 witness: a Windows archive whose first member is not named
project.exe; the chmod still targets project.exe, which must already
exist for the run to succeed. -/
theorem run_chmod_fixed_name_witness :
    run_fetch_extract ⟨["project.exe"], []⟩ ("u2") ("t-win.tar.gz") ["binary.exe"]
      = ScriptResult.ok ⟨["binary.exe", "project.exe"], ["project.exe"]⟩
          [Eff.fetch ("u2") ("t-win.tar.gz"), Eff.extract ("binary.exe"),
           Eff.removeFile ("t-win.tar.gz"), Eff.chmodExec ("project.exe")]
  ∧ (Eff.chmodExec (new_name_of ("t-win.tar.gz"))
        ∈ [Eff.fetch ("u2") ("t-win.tar.gz"), Eff.extract ("binary.exe"),
           Eff.removeFile ("t-win.tar.gz"), Eff.chmodExec ("project.exe")]
      ∧ new_name_of ("t-win.tar.gz")
          ∈ after_remove_files ["project.exe"] ("t-win.tar.gz") ("binary.exe")) :=
  ⟨by decide,
   run_chmod_fixed_name ⟨["project.exe"], []⟩ ("u2") ("t-win.tar.gz") ("binary.exe") []
     ⟨["binary.exe", "project.exe"], ["project.exe"]⟩
     [Eff.fetch ("u2") ("t-win.tar.gz"), Eff.extract ("binary.exe"),
      Eff.removeFile ("t-win.tar.gz"), Eff.chmodExec ("project.exe")]
     (by decide)⟩

/-- C1: when the frame XML is absent update_frame_data takes the SVG
fallback path, and when the SVG snapshot is absent too the scene receives
the fixed red placeholder sphere of radius 50 together with the no-data
banner; being a total function into plain action lists, the refresh
raises nothing past this boundary for any loader outcome. -/
theorem update_frame_data_fallback (fs : List String)
    (loader : String → Except String CellData) (v : Viewer)
    (hx : os_path_join v.output_dir (xml_root v.current_frame) ∉ fs) :
    update_frame_data fs loader v
      = (RenderAct.removeAll :: add_frame_info_text v) ++ try_svg_fallback fs v
          ++ [RenderAct.axes] ++ (if v.vtk_win then [RenderAct.render] else [])
  ∧ (os_path_join v.output_dir (svg_name v.current_frame) ∉ fs
      → RenderAct.sphereActor 50 (1, 0, 0) ∈ update_frame_data fs loader v
        ∧ RenderAct.textActor ("No cell data found for frame " ++ toString v.current_frame)
            24 (1, 1, 0) 100 100 ∈ update_frame_data fs loader v) := by
  have h1 : update_frame_data fs loader v
      = (RenderAct.removeAll :: add_frame_info_text v) ++ try_svg_fallback fs v
          ++ [RenderAct.axes] ++ (if v.vtk_win then [RenderAct.render] else []) := by
    simp only [update_frame_data]
    rw [if_neg hx]
  refine ⟨h1, fun hs => ?_⟩
  have h2 : try_svg_fallback fs v
      = [RenderAct.textActor ("No cell data found for frame " ++ toString v.current_frame)
           24 (1, 1, 0) 100 100] ++ create_demo_sphere := by
    simp only [try_svg_fallback]
    rw [if_neg hs]
  rw [h1, h2]
  constructor <;> simp [create_demo_sphere, add_frame_info_text]

/-- C1 witness: an empty output directory at frame 0 yields the
placeholder sphere. -/
theorem update_frame_data_fallback_witness :
    (os_path_join ("out") (xml_root 0) ∉ ([] : List String))
  ∧ RenderAct.sphereActor 50 (1, 0, 0)
      ∈ update_frame_data [] (fun _ => Except.error ("no parser"))
          ⟨"out", 0, [], false, false, "", []⟩ :=
  ⟨by simp,
   ((update_frame_data_fallback [] (fun _ => Except.error ("no parser"))
       ⟨"out", 0, [], false, false, "", []⟩ (by simp)).2 (by simp)).1⟩

/-- C3 counterexample: at a cell volume equal to the literal
4.188790204786391 the code computes radius exactly 1, while the cube root
of volume divided by the exact 4/3*pi is not 1, because pi is irrational
and the literal is rational; so the radius is not exactly the cube root
of volume / (4/3*pi). -/
theorem cell_radius_counterexample :
    cell_radius 4.188790204786391 = 1
  ∧ ((4.188790204786391 : ℝ) / (4 / 3 * Real.pi)) ^ ((1:ℝ) / 3) ≠ 1 := by
  constructor
  · unfold cell_radius
    rw [div_self (by norm_num : (4.188790204786391 : ℝ) ≠ 0)]
    exact Real.one_rpow _
  · intro h
    have hpi : (0:ℝ) < Real.pi := Real.pi_pos
    have hxpos : (0:ℝ) < (4.188790204786391 : ℝ) / (4 / 3 * Real.pi) := by positivity
    have h2 : ((4.188790204786391 : ℝ) / (4 / 3 * Real.pi)) ^ (((1:ℝ) / 3) * 3)
        = (((4.188790204786391 : ℝ) / (4 / 3 * Real.pi)) ^ ((1:ℝ) / 3)) ^ (3:ℝ) :=
      Real.rpow_mul (le_of_lt hxpos) _ _
    rw [h, Real.one_rpow] at h2
    rw [(by norm_num : ((1:ℝ) / 3) * 3 = 1), Real.rpow_one] at h2
    rw [div_eq_one_iff_eq (by positivity : (4 / 3 * Real.pi : ℝ) ≠ 0)] at h2
    have hlit : (4.188790204786391 : ℝ) = 4188790204786391 / 10 ^ 15 := by norm_num
    have hq : Real.pi = ((12566370614359173 / 4000000000000000 : ℚ) : ℝ) := by
      rw [hlit] at h2
      push_cast
      linarith
    exact absurd hq (irrational_pi.ne_rat _)

/-- C3 amended: the radius is (volume / 4.188790204786391) raised to the
39-digit literal 0.333...3, the double-precision stand-ins for 4/3*pi and
1/3; cubing it therefore reproduces volume / 4.188790204786391 only up to
the exponent defect 10^-39. -/
theorem cell_radius_cube (v : ℝ) (hv : 0 ≤ v) :
    cell_radius v ^ (3:ℝ) = (v / 4.188790204786391) ^ (1 - 1 / 10 ^ 39 : ℝ) := by
  unfold cell_radius
  have hb : (0:ℝ) ≤ v / 4.188790204786391 := by positivity
  rw [← Real.rpow_mul hb]
  norm_num

/-- C3 witness: the cube identity at volume 1. -/
theorem cell_radius_cube_witness :
    ((0:ℝ) ≤ 1)
  ∧ cell_radius 1 ^ (3:ℝ) = ((1:ℝ) / 4.188790204786391) ^ (1 - 1 / 10 ^ 39 : ℝ) :=
  ⟨zero_le_one, cell_radius_cube 1 zero_le_one⟩
